import Mathlib

/-!
Shallow embedding of the MapRVA georeference-tool core
(`src/images/models.py`, `src/images/views.py`, as routed by
`src/images/urls.py`).

Records are modelled as structures, the database as lists of rows, and
each Django view as a function from a database and a request to a
response together with the updated database.  Coordinates are modelled
as rationals (the claims under study concern range checks and value
equality, not float rounding), user identities as `Nat`, and the
authenticated-or-anonymous `request.user` as `Option Nat`.
-/

namespace GeorefTool

/-- A JSON number field as seen by the view: either `float(x)` succeeds
and yields a value, or raises `ValueError`/`TypeError` (malformed). -/
inductive JsonNum where
  | num (q : ℚ)
  | malformed
deriving DecidableEq

/-- `Source` row (`models.py`): only the fields the views read. -/
structure Source where
  id : Nat
  public : Bool
deriving DecidableEq

/-- `Collection` row (`models.py`): foreign key to `Source` plus its
`public` flag. -/
structure Collection where
  id : Nat
  source : Nat
  public : Bool
deriving DecidableEq

/-- `Image` row (`models.py`): the fields the claims touch. -/
structure Image where
  id : Nat
  collection : Nat
  will_not_georef : Bool
  difficulty : Option String
  skip_count : Nat
deriving DecidableEq

/-- `Georeference` row (`models.py`).  Note: the model's `Meta.constraints`
list is empty — the `(image, georeferenced_by)` unique constraint was
removed in the source ("Removed unique constraint to allow multiple
georeferences per user per image"), so an insert can never raise a
uniqueness `IntegrityError`. -/
structure Georeference where
  id : Nat
  image : Nat
  latitude : ℚ
  longitude : ℚ
  direction : Option Int
  confidence : String
  georeferenced_by : Option Nat
  confidence_notes : String
deriving DecidableEq

/-- `GeoreferenceValidation` row (`models.py`). -/
structure GeoreferenceValidation where
  id : Nat
  georeference : Nat
  validated_by : Nat
  validation : String
  notes : String
deriving DecidableEq

/-- `ImageSkip` row (`models.py`); `unique_together ["image", "user"]`. -/
structure ImageSkip where
  image : Nat
  user : Nat
  reason : String
deriving DecidableEq

/-- The relational store.  Row lists are kept in insertion order;
`auto_now_add` timestamps therefore increase along each list, and
primary keys are handed out from the `next…` counters. -/
structure DB where
  sources : List Source
  collections : List Collection
  images : List Image
  georeferences : List Georeference
  validations : List GeoreferenceValidation
  skips : List ImageSkip
  nextGeorefId : Nat
  nextValidId : Nat
deriving DecidableEq

/-- A `JsonResponse` as the views build it. -/
structure Response where
  success : Bool
  status : Nat
  error : Option String := none
  georeference_id : Option Nat := none
  validation_id : Option Nat := none
  message : Option String := none
deriving DecidableEq

/-- `get_object_or_404(Image, id=image_id)`. -/
def findImage (db : DB) (image_id : Nat) : Option Image :=
  db.images.find? (fun img => img.id == image_id)

/-- `image.georeferences` (the reverse foreign-key queryset). -/
def imageGeorefs (db : DB) (image_id : Nat) : List Georeference :=
  db.georeferences.filter (fun g => g.image == image_id)

/-- `image.georeferences.exists()`. -/
def georefExists (db : DB) (image_id : Nat) : Bool :=
  !(imageGeorefs db image_id).isEmpty

/-- The JSON body of a submit request (`georeference_image`).
`notes` models `data.get("notes", "")`, which always yields a string. -/
structure SubmitData where
  latitude : Option JsonNum
  longitude : Option JsonNum
  direction : Option Int
  confidence : Option String
  notes : String
deriving DecidableEq

/-- Python truthiness of `data.get("direction")`: an absent key and the
number `0` are falsy, any other integer is truthy. -/
def truthyDirection : Option Int → Bool
  | some v => v != 0
  | none => false

/-- The row `Georeference.objects.create(...)` builds from a submit
request, mirroring the keyword arguments in `views.py`. -/
def newGeoref (db : DB) (image_id : Nat) (user : Option Nat)
    (lat lon : ℚ) (data : SubmitData) : Georeference :=
  { id := db.nextGeorefId,
    image := image_id,
    latitude := lat,
    longitude := lon,
    direction := if truthyDirection data.direction then data.direction else none,
    confidence := data.confidence.getD "",
    georeferenced_by := user,
    confidence_notes := data.notes }

/-- `georeference_image` (`views.py` lines 289–412).  The validation
chain is reproduced in source order: anonymous-user check, required
fields, confidence enumeration, the two business rules, then the
`float()` conversions inside `objects.create` (a conversion failure is
caught by the outer `except (ValueError, TypeError)` before any row is
written).  No range check on latitude/longitude occurs anywhere on this
path, and — because the model declares no uniqueness constraint on
`(image, georeferenced_by)` — the insert always succeeds, so the
`except IntegrityError` fallback in the view is unreachable. -/
def georeference_image (db : DB) (image_id : Nat) (user : Option Nat)
    (data : SubmitData) : Response × DB :=
  match findImage db image_id with
  | none => ({ success := false, status := 404, error := some "Not Found" }, db)
  | some _ =>
    if user == none && georefExists db image_id then
      ({ success := false, status := 400,
         error := some "This image has already been georeferenced. Please login to submit a correction." }, db)
    else if data.latitude == none then
      ({ success := false, status := 400,
         error := some "Missing required field: latitude" }, db)
    else if data.longitude == none then
      ({ success := false, status := 400,
         error := some "Missing required field: longitude" }, db)
    else if data.confidence == none then
      ({ success := false, status := 400,
         error := some "Missing required field: confidence" }, db)
    else if !(["low", "medium", "high"].contains (data.confidence.getD "")) then
      ({ success := false, status := 400,
         error := some "Invalid confidence level" }, db)
    else if data.confidence == some "high" && !(truthyDirection data.direction) then
      ({ success := false, status := 400,
         error := some "High confidence requires specifying a direction" }, db)
    else if data.confidence == some "low" && data.notes.trim == "" then
      ({ success := false, status := 400,
         error := some "Low confidence requires explanatory notes" }, db)
    else
      match data.latitude, data.longitude with
      | some (JsonNum.num lat), some (JsonNum.num lon) =>
        let g := newGeoref db image_id user lat lon data
        ({ success := true, status := 200,
           georeference_id := some g.id,
           message := some "Image successfully georeferenced" },
         { db with georeferences := db.georeferences ++ [g],
                   nextGeorefId := db.nextGeorefId + 1 })
      | _, _ =>
        ({ success := false, status := 400,
           error := some "Invalid data format" }, db)

/-- Number of `Georeference` rows for a given `(image, user)` pair. -/
def pairCount (db : DB) (image_id userId : Nat) : Nat :=
  (db.georeferences.filter
    (fun g => g.image == image_id && g.georeferenced_by == some userId)).length

/-- `georeference.validation_count` (`models.py`): the number of
`GeoreferenceValidation` rows for a georeference. -/
def validation_count (db : DB) (georeference_id : Nat) : Nat :=
  (db.validations.filter (fun v => v.georeference == georeference_id)).length

/-- `validate_georeference` (`views.py` lines 415–470): authentication
check, `get_object_or_404(Georeference, ...)`, self-validation check
(`georeference.georeferenced_by == request.user`), duplicate-vote check,
choice check, then an insert. -/
def validate_georeference (db : DB) (georeference_id : Nat)
    (user : Option Nat) (vote : Option String) (notes : String) : Response × DB :=
  match user with
  | none => ({ success := false, status := 401,
               error := some "Authentication required" }, db)
  | some u =>
    match db.georeferences.find? (fun g => g.id == georeference_id) with
    | none => ({ success := false, status := 404, error := some "Not Found" }, db)
    | some g =>
      if g.georeferenced_by == some u then
        ({ success := false, status := 400,
           error := some "Cannot validate your own georeference" }, db)
      else if db.validations.any
          (fun v => v.georeference == georeference_id && v.validated_by == u) then
        ({ success := false, status := 400,
           error := some "You have already validated this georeference" }, db)
      else if !(["correct", "incorrect", "uncertain"].contains (vote.getD "")) then
        ({ success := false, status := 400,
           error := some "Invalid validation choice" }, db)
      else
        let v : GeoreferenceValidation :=
          { id := db.nextValidId, georeference := georeference_id,
            validated_by := u, validation := vote.getD "", notes := notes }
        ({ success := true, status := 200, validation_id := some v.id,
           message := some "Validation recorded successfully" }
        , { db with validations := db.validations ++ [v],
                    nextValidId := db.nextValidId + 1 })

/-- The `update_skip_count` signal receiver (`models.py` lines 312–316):
after an `ImageSkip` save or delete it recomputes the owning image's
`skip_count` from the live rows (`instance.image.skips.count()`). -/
def update_skip_count (db : DB) (image_id : Nat) : DB :=
  { db with images := db.images.map (fun img =>
      if img.id == image_id then
        { img with skip_count :=
            (db.skips.filter (fun s => s.image == image_id)).length }
      else img) }

/-- `skip_image` (`views.py` lines 473–499): for an authenticated user,
`ImageSkip.objects.get_or_create(image=..., user=...)`; on creation the
`post_save` signal recomputes `skip_count`; if the row already existed
the view answers `success: False` with an already-skipped message
(HTTP 200, the default status).  Anonymous skips are not tracked. -/
def skip_image (db : DB) (image_id : Nat) (user : Option Nat)
    (reason : String) : Response × DB :=
  match findImage db image_id with
  | none => ({ success := false, status := 404, error := some "Not Found" }, db)
  | some _ =>
    match user with
    | some u =>
      if db.skips.any (fun s => s.image == image_id && s.user == u) then
        ({ success := false, status := 200,
           error := some "You have already skipped this image" }, db)
      else
        let db1 := { db with skips :=
          db.skips ++ [{ image := image_id, user := u, reason := reason }] }
        ({ success := true, status := 200 }, update_skip_count db1 image_id)
    | none => ({ success := true, status := 200 }, db)

/-- Administrative deletion of one user's `ImageSkip` through the ORM:
`instance.delete()` removes the row and fires the `post_delete` signal,
which recomputes the owning image's `skip_count`.  When no such row
exists there is nothing to delete and no signal fires. -/
def delete_image_skip (db : DB) (image_id userId : Nat) : DB :=
  if db.skips.any (fun s => s.image == image_id && s.user == userId) then
    let db1 := { db with
      skips := db.skips.filter (fun s => !(s.image == image_id && s.user == userId)) }
    update_skip_count db1 image_id
  else db

/-- One skip-tracker operation: a skip through the `skip_image` view, or
an administrative un-skip (deletion). -/
inductive SkipOp where
  | create (image_id userId : Nat) (reason : String)
  | del (image_id userId : Nat)

/-- Apply one skip-tracker operation to the store. -/
def applySkipOp (db : DB) : SkipOp → DB
  | SkipOp.create i u r => (skip_image db i (some u) r).2
  | SkipOp.del i u => delete_image_skip db i u

/-- The claimed invariant: every image's denormalized `skip_count`
equals the live number of `ImageSkip` rows referencing it. -/
def skipCountConsistent (db : DB) : Bool :=
  db.images.all (fun img =>
    img.skip_count == (db.skips.filter (fun s => s.image == img.id)).length)

/-- `Image.georeference_status` (`models.py` lines 155–170). -/
def georeference_status (db : DB) (img : Image) : String :=
  if img.will_not_georef then "will_not_georef"
  else if georefExists db img.id then
    if (imageGeorefs db img.id).any
        (fun g => db.validations.any (fun v => v.georeference == g.id)) then
      "validated"
    else "georeferenced"
  else "pending"

/-- `Image.get_georeference` (`models.py`): the most recent georeference
(`order_by("-georeferenced_at").first()`); `auto_now_add` timestamps
follow insertion order, so this is the last row for the image. -/
def get_georeference (db : DB) (image_id : Nat) : Option Georeference :=
  (imageGeorefs db image_id).getLast?

/-- The ORM lookup `collection__public=True, collection__source__public=True`
for an image's collection foreign key. -/
def collPublic (db : DB) (collection_id : Nat) : Bool :=
  match db.collections.find? (fun c => c.id == collection_id) with
  | some c =>
    c.public &&
      (match db.sources.find? (fun s => s.id == c.source) with
       | some s => s.public
       | none => false)
  | none => false

/-- The direct-fetch path of `georeference_interface` (`views.py` lines
156–168): `Image.objects.get(id=..., will_not_georef=False,
collection__public=True, collection__source__public=True)`, with
`DoesNotExist` caught (yielding `none`, i.e. fall through). -/
def requestedImage (db : DB) (image_id : Nat) : Option Image :=
  db.images.find? (fun img =>
    img.id == image_id && img.will_not_georef == false &&
      collPublic db img.collection)

/-- The base queryset of `georeference_interface` (`views.py` lines
170–182): ungeoreferenced, not `will_not_georef`, public collection and
source, minus the images the authenticated user has skipped. -/
def eligibleImages (db : DB) (user : Option Nat) : List Image :=
  (db.images.filter (fun img =>
    !(georefExists db img.id) && img.will_not_georef == false &&
      collPublic db img.collection)).filter
    (fun img =>
      match user with
      | some u => !(db.skips.any (fun s => s.image == img.id && s.user == u))
      | none => true)

/-- The `current_image` selection of `georeference_interface`: the
requested image when the direct fetch succeeds, otherwise a draw from
the eligible set (`order_by("?").first()`, modelled by an arbitrary
`pick` function over the queryset). -/
def georeference_interface_select (db : DB) (user : Option Nat)
    (requested : Option Nat) (pick : List Image → Option Image) : Option Image :=
  match requested with
  | some rid =>
    match requestedImage db rid with
    | some img => some img
    | none => pick (eligibleImages db user)
  | none => pick (eligibleImages db user)

/-- A submit body that passes every check in `georeference_image`'s
validation chain: both coordinates well-formed, confidence one of the
three levels, direction truthy when confidence is high, non-blank notes
when confidence is low. -/
def validSubmitData (d : SubmitData) : Bool :=
  (match d.latitude with | some (JsonNum.num _) => true | _ => false) &&
  (match d.longitude with | some (JsonNum.num _) => true | _ => false) &&
  (["low", "medium", "high"].contains (d.confidence.getD "")) &&
  (!(d.confidence == some "high") || truthyDirection d.direction) &&
  (!(d.confidence == some "low") || !(d.notes.trim == ""))

/-- The value `float(data["latitude"])` yields on a well-formed body. -/
def latOf (d : SubmitData) : ℚ :=
  match d.latitude with
  | some (JsonNum.num q) => q
  | _ => 0

/-- The value `float(data["longitude"])` yields on a well-formed body. -/
def lonOf (d : SubmitData) : ℚ :=
  match d.longitude with
  | some (JsonNum.num q) => q
  | _ => 0

/-- A store with one public source, one public collection and one
bare image (id 1), used to instantiate the claims. -/
def sampleDB : DB :=
  { sources := [{ id := 1, public := true }],
    collections := [{ id := 1, source := 1, public := true }],
    images := [{ id := 1, collection := 1, will_not_georef := false,
                 difficulty := none, skip_count := 0 }],
    georeferences := [],
    validations := [],
    skips := [],
    nextGeorefId := 1,
    nextValidId := 1 }

/-- `sampleDB` after user 7 has skipped image 1. -/
def skipDB : DB :=
  { sampleDB with
    skips := [{ image := 1, user := 7, reason := "" }]
    images := [{ id := 1, collection := 1, will_not_georef := false,
                 difficulty := none, skip_count := 1 }] }

/-- `sampleDB` with one anonymous georeference (id 0) on image 1. -/
def georefDB : DB :=
  { sampleDB with
    georeferences := [{ id := 0, image := 1, latitude := 0, longitude := 0,
                        direction := none, confidence := "medium",
                        georeferenced_by := none, confidence_notes := "" }] }

/-- A plain medium-confidence submit body. -/
def mediumBody : SubmitData :=
  { latitude := some (JsonNum.num 37), longitude := some (JsonNum.num (-77)),
    direction := none, confidence := some "medium", notes := "" }

/-- A second, different submit body (high confidence, direction 5). -/
def highBody : SubmitData :=
  { latitude := some (JsonNum.num 38), longitude := some (JsonNum.num (-78)),
    direction := some 5, confidence := some "high", notes := "x" }

/-- High confidence with valid coordinates and direction 0 (due north). -/
def highNorthBody : SubmitData :=
  { latitude := some (JsonNum.num 37), longitude := some (JsonNum.num (-77)),
    direction := some 0, confidence := some "high", notes := "" }

/-- Medium confidence with an out-of-range latitude of 91. -/
def lat91Body : SubmitData :=
  { latitude := some (JsonNum.num 91), longitude := some (JsonNum.num 0),
    direction := none, confidence := some "medium", notes := "" }

/-- Medium confidence with a malformed latitude. -/
def malformedBody : SubmitData :=
  { latitude := some JsonNum.malformed, longitude := some (JsonNum.num 0),
    direction := none, confidence := some "medium", notes := "" }

/-- Any submit whose body passes the validation chain, on an existing
image, and which is not an anonymous submit on an already-georeferenced
image, inserts exactly one new `Georeference` row carrying the body's
values and reports success.  (The insert cannot conflict: the model
declares no uniqueness constraint on `(image, georeferenced_by)`.) -/
theorem submit_valid_creates (db : DB) (image_id : Nat) (user : Option Nat)
    (data : SubmitData) (img : Image)
    (himg : findImage db image_id = some img)
    (hanon : user = none → georefExists db image_id = false)
    (hv : validSubmitData data = true) :
    georeference_image db image_id user data =
      ({ success := true, status := 200,
         georeference_id := some db.nextGeorefId,
         message := some "Image successfully georeferenced" },
       { db with
         georeferences := db.georeferences ++
           [newGeoref db image_id user (latOf data) (lonOf data) data],
         nextGeorefId := db.nextGeorefId + 1 }) := by
  obtain ⟨dlat, dlon, ddir, dconf, dnotes⟩ := data
  simp only [validSubmitData, Bool.and_eq_true] at hv
  obtain ⟨⟨⟨⟨hlat, hlon⟩, hconf⟩, hhigh⟩, hlow⟩ := hv
  match dlat, hlat with
  | some (JsonNum.num lat), _ =>
  match dlon, hlon with
  | some (JsonNum.num lon), _ =>
  match dconf, hconf with
  | some c, hconf =>
  have hanon' : (user == none && georefExists db image_id) = false := by
    cases user with
    | none => simp [hanon rfl]
    | some u => simp
  have hc : c = "low" ∨ c = "medium" ∨ c = "high" := by
    simpa using hconf
  unfold georeference_image
  rw [himg, hanon']
  rcases hc with hc | hc | hc <;> subst hc <;>
    simp_all [newGeoref, latOf, lonOf]

/-- C1 fails on the code: with the `(image, georeferenced_by)` unique
constraint removed from the model, nothing stops a second insert — two
submit calls by authenticated user 5 on image 1 leave two `Georeference`
rows for the pair, not at most one. -/
theorem claim_C1_counterexample :
    pairCount (georeference_image
      (georeference_image sampleDB 1 (some 5) mediumBody).2
      1 (some 5) highBody).2 1 5 = 2 ∧
    ¬ pairCount (georeference_image
      (georeference_image sampleDB 1 (some 5) mediumBody).2
      1 (some 5) highBody).2 1 5 ≤ 1 := by
  refine ⟨rfl, by decide⟩

/-- C1 amended: every submit by an authenticated user with a valid body
on an existing image succeeds and inserts a fresh row (never an error,
but also never an in-place update).  Two such submits leave two more
rows for the `(image, user)` pair than before, and the most recent row —
the one `get_georeference` returns — holds the second call's
coordinates, direction, confidence and notes. -/
theorem claim_C1_amended (db : DB) (image_id u : Nat)
    (data1 data2 : SubmitData) (img : Image)
    (himg : findImage db image_id = some img)
    (h1 : validSubmitData data1 = true) (h2 : validSubmitData data2 = true) :
    (georeference_image db image_id (some u) data1).1.success = true ∧
    (georeference_image (georeference_image db image_id (some u) data1).2
        image_id (some u) data2).1.success = true ∧
    pairCount (georeference_image (georeference_image db image_id (some u) data1).2
        image_id (some u) data2).2 image_id u = pairCount db image_id u + 2 ∧
    get_georeference (georeference_image (georeference_image db image_id (some u) data1).2
        image_id (some u) data2).2 image_id =
      some (newGeoref (georeference_image db image_id (some u) data1).2 image_id (some u)
        (latOf data2) (lonOf data2) data2) := by
  have e1 := submit_valid_creates db image_id (some u) data1 img himg (by simp) h1
  have himg2 : findImage (georeference_image db image_id (some u) data1).2 image_id
      = some img := by
    rw [e1]; exact himg
  have e2 := submit_valid_creates (georeference_image db image_id (some u) data1).2
    image_id (some u) data2 img himg2 (by simp) h2
  refine ⟨by rw [e1], by rw [e2], ?_, ?_⟩
  · rw [e2, e1]
    simp [pairCount, newGeoref, List.filter_append]
  · rw [e2, e1]
    simp [get_georeference, imageGeorefs, newGeoref, List.filter_append,
      List.getLast?_concat]

/-- Closed instance of the amended C1 at `sampleDB`, user 5 and two
concrete bodies. -/
theorem claim_C1_amended_witness :
    (georeference_image sampleDB 1 (some 5) mediumBody).1.success = true ∧
    (georeference_image (georeference_image sampleDB 1 (some 5) mediumBody).2
        1 (some 5) highBody).1.success = true ∧
    pairCount (georeference_image (georeference_image sampleDB 1 (some 5) mediumBody).2
        1 (some 5) highBody).2 1 5 = pairCount sampleDB 1 5 + 2 ∧
    get_georeference (georeference_image (georeference_image sampleDB 1 (some 5) mediumBody).2
        1 (some 5) highBody).2 1 =
      some (newGeoref (georeference_image sampleDB 1 (some 5) mediumBody).2 1 (some 5)
        (latOf highBody) (lonOf highBody) highBody) :=
  claim_C1_amended sampleDB 1 5 mediumBody highBody
    { id := 1, collection := 1, will_not_georef := false,
      difficulty := none, skip_count := 0 }
    (by decide) (by decide) (by decide)

/-- C2: submitting with `confidence = high`, valid coordinates and the
in-range direction 0 (due north) is rejected by `georeference_image`
("High confidence requires specifying a direction") and writes no row:
the view tests `not data.get("direction")`, and the Python number 0 is
falsy, so a supplied direction of 0 is treated as missing even though the
model documents 0 ("North") as a valid direction value. -/
theorem claim_C2_direction_zero_rejected :
    georeference_image sampleDB 1 (some 5) highNorthBody =
      ({ success := false, status := 400,
         error := some "High confidence requires specifying a direction" },
       sampleDB) ∧
    (0 : Int) ≥ 0 ∧ (0 : Int) ≤ 359 := by
  refine ⟨rfl, by decide, by decide⟩

/-- C3: `georeference_image` performs no range check on the coordinates.
With `latitude = 91` (outside `[-90, 90]`) and valid remaining fields the
call succeeds and a row holding latitude 91 is persisted, contradicting
the model's declared `MinValueValidator(-90.0) / MaxValueValidator(90.0)`
(Django validators do not run on `objects.create`).  A malformed
coordinate, by contrast, is rejected with "Invalid data format" before
any write. -/
theorem claim_C3_no_range_check :
    (georeference_image sampleDB 1 (some 5) lat91Body).1.success = true ∧
    (georeference_image sampleDB 1 (some 5) lat91Body).2.georeferences =
      [{ id := 1, image := 1, latitude := 91, longitude := 0,
         direction := none, confidence := "medium",
         georeferenced_by := some 5, confidence_notes := "" }] ∧
    georeference_image sampleDB 1 (some 5) malformedBody =
      ({ success := false, status := 400,
         error := some "Invalid data format" }, sampleDB) := by
  refine ⟨rfl, rfl, rfl⟩

/-- `sampleDB` with a skip by user 7 and an anonymous georeference on
image 1, but the `images`, `collections` and `sources` tables unchanged. -/
def noisyDB : DB :=
  { sampleDB with
    skips := [{ image := 1, user := 7, reason := "" }]
    georeferences := [{ id := 0, image := 1, latitude := 0, longitude := 0,
                        direction := none, confidence := "medium",
                        georeferenced_by := none, confidence_notes := "" }] }

/-- C4 fails on the code: in `georeference_interface` the skip exclusion
(`exclude(skips__user=request.user)`) is applied only to the random
queryset, not to the direct `Image.objects.get(...)` fetch.  Here user 7
has skipped image 1, the random eligible set is empty, and yet requesting
image 1 returns it directly. -/
theorem claim_C4_counterexample :
    skipDB.skips.any (fun s => s.image == 1 && s.user == 7) = true ∧
    eligibleImages skipDB (some 7) = [] ∧
    georeference_interface_select skipDB (some 7) (some 1) List.head? =
      some { id := 1, collection := 1, will_not_georef := false,
             difficulty := none, skip_count := 1 } := by
  refine ⟨rfl, rfl, rfl⟩

/-- C4 amended: the direct-fetch path checks only existence,
`will_not_georef` and public visibility; it ignores both the
already-has-a-submission condition and the skip exclusion (the fetch
reads nothing but the `images`, `collections` and `sources` tables), and
when it succeeds its image is returned no matter the user's skips.  Only
when the direct fetch fails does selection fall through to the random
draw over the eligible set. -/
theorem claim_C4_amended (db db2 : DB) (rid : Nat) (user : Option Nat)
    (pick : List Image → Option Image)
    (himg : db2.images = db.images) (hcol : db2.collections = db.collections)
    (hsrc : db2.sources = db.sources) :
    requestedImage db2 rid = requestedImage db rid ∧
    (∀ img, requestedImage db rid = some img →
      img.id = rid ∧ img.will_not_georef = false ∧
      collPublic db img.collection = true ∧
      georeference_interface_select db user (some rid) pick = some img) ∧
    (requestedImage db rid = none →
      georeference_interface_select db user (some rid) pick =
        pick (eligibleImages db user)) := by
  refine ⟨?_, ?_, ?_⟩
  · simp only [requestedImage, collPublic, himg, hcol, hsrc]
  · intro img h
    have hp := List.find?_some h
    simp only [Bool.and_eq_true, beq_iff_eq] at hp
    refine ⟨hp.1.1, hp.1.2, hp.2, ?_⟩
    simp [georeference_interface_select, h]
  · intro h
    simp [georeference_interface_select, h]

/-- Closed instance of the amended C4: the direct fetch gives the same
answer on `sampleDB` and on `noisyDB` (which differs only by a skip and
a georeference), and on `sampleDB` the returned image satisfies exactly
the three checked conditions. -/
theorem claim_C4_amended_witness :
    requestedImage noisyDB 1 = requestedImage sampleDB 1 ∧
    ({ id := 1, collection := 1, will_not_georef := false,
       difficulty := none, skip_count := 0 } : Image).id = 1 ∧
    georeference_interface_select sampleDB (some 7) (some 1) List.head? =
      some { id := 1, collection := 1, will_not_georef := false,
             difficulty := none, skip_count := 0 } :=
  ⟨(claim_C4_amended sampleDB noisyDB 1 (some 7) List.head? rfl rfl rfl).1,
   ((claim_C4_amended sampleDB noisyDB 1 (some 7) List.head? rfl rfl rfl).2.1
      { id := 1, collection := 1, will_not_georef := false,
        difficulty := none, skip_count := 0 } rfl).1,
   ((claim_C4_amended sampleDB noisyDB 1 (some 7) List.head? rfl rfl rfl).2.1
      { id := 1, collection := 1, will_not_georef := false,
        difficulty := none, skip_count := 0 } rfl).2.2.2⟩

/-- C5 fails on the code in one respect: a repeated skip indeed creates
no duplicate row, and the response is distinguishable, but it is shaped
as an error — `success: False` with an `error` message — rather than a
non-error `already_skipped` status. -/
theorem claim_C5_counterexample :
    skip_image skipDB 1 (some 7) "" =
      ({ success := false, status := 200,
         error := some "You have already skipped this image" }, skipDB) ∧
    (skip_image skipDB 1 (some 7) "").1.success = false := by
  refine ⟨rfl, rfl⟩

/-- C5 amended: for an authenticated user who already has an `ImageSkip`
for an existing image, `skip_image` leaves the store untouched (no
duplicate row) and answers HTTP 200 with the distinguishable message
"You have already skipped this image", but marked `success: False` — an
error-shaped payload, not a non-error `already_skipped` status. -/
theorem claim_C5_amended (db : DB) (image_id u : Nat) (reason : String)
    (img : Image) (himg : findImage db image_id = some img)
    (hskip : db.skips.any (fun s => s.image == image_id && s.user == u) = true) :
    skip_image db image_id (some u) reason =
      ({ success := false, status := 200,
         error := some "You have already skipped this image" }, db) := by
  simp [skip_image, himg, hskip]

/-- Closed instance of the amended C5 at `skipDB`, image 1, user 7. -/
theorem claim_C5_amended_witness :
    skip_image skipDB 1 (some 7) "dup" =
      ({ success := false, status := 200,
         error := some "You have already skipped this image" }, skipDB) :=
  claim_C5_amended skipDB 1 7 "dup"
    { id := 1, collection := 1, will_not_georef := false,
      difficulty := none, skip_count := 1 }
    (by decide) (by decide)

/-- `sampleDB` with a georeference (id 0) submitted by user 5 on image 1
and an existing "correct" vote by user 9 on it. -/
def voteDB : DB :=
  { sampleDB with
    georeferences := [{ id := 0, image := 1, latitude := 0, longitude := 0,
                        direction := none, confidence := "medium",
                        georeferenced_by := some 5, confidence_notes := "" }]
    validations := [{ id := 0, georeference := 0, validated_by := 9,
                      validation := "correct", notes := "" }]
    nextValidId := 1 }

/-- C6: an anonymous submit (`request.user` not authenticated) on an
existing image is rejected with the already-georeferenced rule violation
and writes nothing whenever the image has at least one `Georeference`
row; with zero rows and a valid body it is accepted and inserts one row
whose submitter is null. -/
theorem claim_C6_anonymous_first_come (db : DB) (image_id : Nat)
    (data : SubmitData) (img : Image)
    (himg : findImage db image_id = some img) :
    (georefExists db image_id = true →
      georeference_image db image_id none data =
        ({ success := false, status := 400,
           error := some "This image has already been georeferenced. Please login to submit a correction." },
         db)) ∧
    (georefExists db image_id = false → validSubmitData data = true →
      georeference_image db image_id none data =
        ({ success := true, status := 200,
           georeference_id := some db.nextGeorefId,
           message := some "Image successfully georeferenced" },
         { db with
           georeferences := db.georeferences ++
             [newGeoref db image_id none (latOf data) (lonOf data) data],
           nextGeorefId := db.nextGeorefId + 1 })) := by
  constructor
  · intro h
    simp [georeference_image, himg, h]
  · intro h hv
    exact submit_valid_creates db image_id none data img himg (fun _ => h) hv

/-- Closed instance of C6: the anonymous-rejection half at `georefDB`
(image 1 already georeferenced). -/
theorem claim_C6_witness :
    georeference_image georefDB 1 none mediumBody =
      ({ success := false, status := 400,
         error := some "This image has already been georeferenced. Please login to submit a correction." },
       georefDB) :=
  (claim_C6_anonymous_first_come georefDB 1 mediumBody
    { id := 1, collection := 1, will_not_georef := false,
      difficulty := none, skip_count := 0 }
    (by decide)).1 (by decide)

/-- C7: `validate_georeference` rejects a self-validation (voter equals
the georeference's submitter) with HTTP 400 and leaves the store — and
hence the validation count — unchanged; a voter who already has a vote
on the georeference is likewise rejected with HTTP 400, no vote row
created or replaced. -/
theorem claim_C7_vote_rejections (db : DB) (gid u : Nat)
    (vote : Option String) (notes : String) (g : Georeference)
    (hg : db.georeferences.find? (fun x => x.id == gid) = some g) :
    (g.georeferenced_by = some u →
      validate_georeference db gid (some u) vote notes =
        ({ success := false, status := 400,
           error := some "Cannot validate your own georeference" }, db)) ∧
    (db.validations.any (fun v => v.georeference == gid && v.validated_by == u) = true →
      (validate_georeference db gid (some u) vote notes).1.success = false ∧
      (validate_georeference db gid (some u) vote notes).1.status = 400 ∧
      (validate_georeference db gid (some u) vote notes).2 = db ∧
      validation_count (validate_georeference db gid (some u) vote notes).2 gid =
        validation_count db gid) := by
  constructor
  · intro h
    simp [validate_georeference, hg, h]
  · intro h
    cases hb : (g.georeferenced_by == some u) <;>
      simp [validate_georeference, hg, hb, h]

/-- Closed instance of C7: the duplicate-validation half, with user 9
re-voting on georeference 0 of `voteDB`. -/
theorem claim_C7_witness :
    (validate_georeference voteDB 0 (some 9) (some "correct") "").1.success = false ∧
    (validate_georeference voteDB 0 (some 9) (some "correct") "").1.status = 400 ∧
    (validate_georeference voteDB 0 (some 9) (some "correct") "").2 = voteDB ∧
    validation_count (validate_georeference voteDB 0 (some 9) (some "correct") "").2 0 =
      validation_count voteDB 0 :=
  (claim_C7_vote_rejections voteDB 0 9 (some "correct") ""
    { id := 0, image := 1, latitude := 0, longitude := 0,
      direction := none, confidence := "medium",
      georeferenced_by := some 5, confidence_notes := "" }
    (by decide)).2 (by decide)

/-- C9: `Image.georeference_status` is total with exactly the four
values `pending` / `georeferenced` / `validated` / `will_not_georef`;
the `will_not_georef` flag dominates regardless of submissions or
validations, then validated-over-georeferenced-over-pending in the
stated priority order. -/
theorem claim_C9_status_total (db : DB) (img : Image) :
    (georeference_status db img = "pending" ∨
     georeference_status db img = "georeferenced" ∨
     georeference_status db img = "validated" ∨
     georeference_status db img = "will_not_georef") ∧
    (img.will_not_georef = true →
      georeference_status db img = "will_not_georef") ∧
    (img.will_not_georef = false → georefExists db img.id = true →
      (imageGeorefs db img.id).any
        (fun g => db.validations.any (fun v => v.georeference == g.id)) = true →
      georeference_status db img = "validated") ∧
    (img.will_not_georef = false → georefExists db img.id = true →
      (imageGeorefs db img.id).any
        (fun g => db.validations.any (fun v => v.georeference == g.id)) = false →
      georeference_status db img = "georeferenced") ∧
    (img.will_not_georef = false → georefExists db img.id = false →
      georeference_status db img = "pending") := by
  cases h1 : img.will_not_georef <;>
    cases h2 : georefExists db img.id <;>
    cases h3 : (imageGeorefs db img.id).any
      (fun g => db.validations.any (fun v => v.georeference == g.id)) <;>
    simp [georeference_status, h1, h2, h3]

/-- Closed instance of C9 at `georefDB`: the flag-dominance part with
the `will_not_georef` flag set on an image that has a submission. -/
theorem claim_C9_witness :
    georeference_status georefDB
      { id := 1, collection := 1, will_not_georef := true,
        difficulty := none, skip_count := 0 } = "will_not_georef" :=
  (claim_C9_status_total georefDB
    { id := 1, collection := 1, will_not_georef := true,
      difficulty := none, skip_count := 0 }).2.1 rfl

/-- C10: when a georeference's submitter is null (anonymous), the
self-validation check `georeference.georeferenced_by == request.user`
compares `None` to an authenticated user and never fires: the response
is never the self-validation error, and any authenticated voter without
a prior vote and with a valid choice succeeds — including a voter who in
fact created the row while logged out. -/
theorem claim_C10_anonymous_never_self (db : DB) (gid u : Nat)
    (vote : Option String) (notes : String) (g : Georeference)
    (hg : db.georeferences.find? (fun x => x.id == gid) = some g)
    (hanon : g.georeferenced_by = none) :
    (validate_georeference db gid (some u) vote notes).1.error ≠
      some "Cannot validate your own georeference" ∧
    (db.validations.any (fun v => v.georeference == gid && v.validated_by == u) = false →
      ["correct", "incorrect", "uncertain"].contains (vote.getD "") = true →
      (validate_georeference db gid (some u) vote notes).1.success = true) := by
  constructor
  · cases hd : db.validations.any
        (fun v => v.georeference == gid && v.validated_by == u) <;>
      simp [validate_georeference, hg, hanon, hd]
    split <;> simp
  · intro hd hc
    simp at hc
    rcases hc with h | h | h <;>
      simp [validate_georeference, hg, hanon, hd, h]

/-- Closed instance of C10 at `georefDB` (anonymous georeference 0),
voter 9 voting "correct". -/
theorem claim_C10_witness :
    (validate_georeference georefDB 0 (some 9) (some "correct") "").1.success = true :=
  (claim_C10_anonymous_never_self georefDB 0 9 (some "correct") ""
    { id := 0, image := 1, latitude := 0, longitude := 0,
      direction := none, confidence := "medium",
      georeferenced_by := none, confidence_notes := "" }
    (by decide) rfl).2 (by decide) (by decide)

/-- The signal recomputation restores consistency: if the store was
consistent, the skips of images other than `i` are untouched, and the
images table is unchanged, then running `update_skip_count` for image
`i` yields a consistent store. -/
theorem update_restores (db db2 : DB) (i : Nat)
    (himages : db2.images = db.images)
    (hother : ∀ img ∈ db.images, (img.id == i) = false →
      (db2.skips.filter (fun s => s.image == img.id)).length =
      (db.skips.filter (fun s => s.image == img.id)).length)
    (hdb : skipCountConsistent db = true) :
    skipCountConsistent (update_skip_count db2 i) = true := by
  rw [skipCountConsistent, List.all_eq_true] at hdb ⊢
  intro x hx
  simp only [update_skip_count, himages, List.mem_map] at hx
  obtain ⟨img, hmem, hfx⟩ := hx
  by_cases hid : img.id = i
  · subst hid
    simp only [beq_self_eq_true, if_true] at hfx
    subst hfx
    simp [update_skip_count]
  · have hid' : (img.id == i) = false := by simp [hid]
    rw [hid'] at hfx
    simp only [Bool.false_eq_true, if_false] at hfx
    subst hfx
    simp only [update_skip_count]
    rw [hother img hmem hid']
    exact hdb img hmem

/-- A skip through the view preserves the skip-count invariant. -/
theorem skip_image_consistent (db : DB) (i u : Nat) (r : String)
    (hdb : skipCountConsistent db = true) :
    skipCountConsistent (skip_image db i (some u) r).2 = true := by
  cases hfind : findImage db i with
  | none => simpa [skip_image, hfind] using hdb
  | some img =>
    cases hsk : db.skips.any (fun s => s.image == i && s.user == u) with
    | true => simpa [skip_image, hfind, hsk] using hdb
    | false =>
      have hstep : (skip_image db i (some u) r).2 =
          update_skip_count
            { db with skips := db.skips ++ [{ image := i, user := u, reason := r }] }
            i := by
        simp [skip_image, hfind, hsk]
      rw [hstep]
      refine update_restores db _ i rfl ?_ hdb
      intro img2 hmem hid
      have hne : (i == img2.id) = false := by
        simp only [beq_eq_false_iff_ne] at hid ⊢
        exact fun h => hid h.symm
      simp [List.filter_append, hne]

/-- An administrative un-skip preserves the skip-count invariant. -/
theorem delete_skip_consistent (db : DB) (i u : Nat)
    (hdb : skipCountConsistent db = true) :
    skipCountConsistent (delete_image_skip db i u) = true := by
  cases hsk : db.skips.any (fun s => s.image == i && s.user == u) with
  | false => simpa [delete_image_skip, hsk] using hdb
  | true =>
    have hstep : delete_image_skip db i u =
        update_skip_count
          { db with
            skips := db.skips.filter (fun s => !(s.image == i && s.user == u)) }
          i := by
      simp [delete_image_skip, hsk]
    rw [hstep]
    refine update_restores db _ i rfl ?_ hdb
    intro img2 hmem hid
    rw [List.filter_filter]
    refine congrArg List.length (List.filter_congr ?_)
    intro s hs
    by_cases hP : s.image = img2.id
    · have h2 : ¬ img2.id = i := by simpa using hid
      simp [hP, h2]
    · simp [hP]

/-- Each skip-tracker operation preserves the skip-count invariant. -/
theorem applySkipOp_consistent (db : DB) (op : SkipOp)
    (hdb : skipCountConsistent db = true) :
    skipCountConsistent (applySkipOp db op) = true := by
  cases op with
  | create i u r => exact skip_image_consistent db i u r hdb
  | del i u => exact delete_skip_consistent db i u hdb

/-- C8: starting from any consistent store, after every finite sequence
of skip creations and deletions each image's `skip_count` still equals
the live count of `ImageSkip` rows referencing it — the signal receiver
recomputes the counter from the rows on every write. -/
theorem claim_C8_skip_count_invariant (db : DB) (ops : List SkipOp)
    (hdb : skipCountConsistent db = true) :
    skipCountConsistent (ops.foldl applySkipOp db) = true := by
  induction ops generalizing db with
  | nil => exact hdb
  | cons op rest ih => exact ih _ (applySkipOp_consistent db op hdb)

/-- Closed instance of C8: two skips and one un-skip on `sampleDB`. -/
theorem claim_C8_witness :
    skipCountConsistent
      ([SkipOp.create 1 7 "", SkipOp.create 1 8 "", SkipOp.del 1 7].foldl
        applySkipOp sampleDB) = true :=
  claim_C8_skip_count_invariant sampleDB
    [SkipOp.create 1 7 "", SkipOp.create 1 8 "", SkipOp.del 1 7] (by decide)

end GeorefTool
